import Mathlib

/-!
Verification of the pmemkv C front-door API (`src/libpmemkv.cc`):
the typed configuration container, its JSON ingestion path, the
engine-dispatch `pmemkv_open`, and the query facade (`pmemkv_get_copy`
and the exception-to-status wrappers).

Shallow embedding conventions:
* machine bytes are `Nat`s below 256, buffers are `List Nat`;
* `size_t` / `uint64_t` are `Nat` (with explicit `% 2^64` facts where
  they matter), `int64_t` is `Int` with explicit two's-complement
  encoding `i64ToU64` / decoding `u64ToI64`;
* out-parameters are modelled as `Option` cells: `none` models a null
  pointer passed by the caller, `some x` models a non-null cell holding
  `x`; a function returns the final cell contents;
* allocation failure (`catch` of `std::bad_alloc` around `new` /
  container insertion) is not modelled: the happy allocation path is
  embedded, matching every claim, none of which is about OOM.
-/

namespace Pmemkv

/-- The PMEMKV_STATUS_* codes of `libpmemkv.h`. -/
inductive Status where
  | OK
  | FAILED
  | NOT_FOUND
  | NOT_SUPPORTED
  | INVALID_ARGUMENT
  | CONFIG_PARSING_ERROR
  | CONFIG_TYPE_ERROR
  | STOPPED_BY_CB
  deriving DecidableEq, Repr

/-! ### Byte-level encoding of 64-bit values

`pmemkv_config_put_int64` / `put_uint64` / `put_object` memcpy the 8
bytes of the value into the entry's `std::vector<char>`; the typed
getters reinterpret those bytes.  We model the byte image of a 64-bit
quantity little-endian. -/

/-- The 8 little-endian bytes of a `uint64_t` value `v` (any `Nat`;
values are reduced mod `2^64` by the byte extraction itself). -/
def u64ToBytes (v : Nat) : List Nat :=
  [v % 256, v / 256 % 256, v / 256 ^ 2 % 256, v / 256 ^ 3 % 256,
   v / 256 ^ 4 % 256, v / 256 ^ 5 % 256, v / 256 ^ 6 % 256, v / 256 ^ 7 % 256]

/-- Reassemble a little-endian byte list into a `Nat`
(the value a `memcpy` into a `uint64_t` would produce). -/
def bytesToNat (bs : List Nat) : Nat :=
  bs.foldr (fun b acc => b % 256 + 256 * acc) 0

/-- Two's-complement image of an `int64_t` as a `uint64_t` bit pattern. -/
def i64ToU64 (v : Int) : Nat := (v % (2 ^ 64 : Int)).toNat

/-- Reading a `uint64_t` bit pattern as an `int64_t`. -/
def u64ToI64 (n : Nat) : Int :=
  if n % 2 ^ 64 < 2 ^ 63 then (n % 2 ^ 64 : Nat) else (n % 2 ^ 64 : Nat) - 2 ^ 64

theorem bytesToNat_u64ToBytes (v : Nat) : bytesToNat (u64ToBytes v) = v % 2 ^ 64 := by
  simp only [u64ToBytes, bytesToNat, List.foldr]
  omega

theorem u64ToI64_i64ToU64 (v : Int) (h₁ : -(2 ^ 63) ≤ v) (h₂ : v < 2 ^ 63) :
    u64ToI64 (i64ToU64 v) = v := by
  unfold u64ToI64 i64ToU64
  omega

/-! ### The configuration container (`struct pmemkv_config`) -/

/-- `pmemkv_config::config_type`. -/
inductive ConfigValType where
  | STRING
  | INT64
  | UINT64
  | DOUBLE
  | DATA
  | OBJECT
  deriving DecidableEq, Repr

/-- `pmemkv_config::entry`: raw value bytes, an optional destructor
(function pointers are modelled as `Nat` identifiers, `none` models the
null pointer), and the type tag. -/
structure ConfigEntry where
  value : List Nat
  deleter : Option Nat
  type : ConfigValType
  deriving DecidableEq, Repr

/-- `struct pmemkv_config`: `std::unordered_map<std::string, entry>`,
modelled as an association list with unique keys (lookup takes the
first match, insertion is a no-op on a present key, exactly as
`umap.insert`). -/
structure Config where
  entries : List (String × ConfigEntry)
  deriving DecidableEq, Repr

/-- `pmemkv_config_new()`: a fresh empty container. -/
def pmemkv_config_new : Config := ⟨[]⟩

/-- `umap.find(key)`. -/
def Config.find (c : Config) (k : String) : Option ConfigEntry :=
  (c.entries.find? (fun kv => kv.1 = k)).map (·.2)

/-- `umap.insert({key, entry})`: inserts only when the key is absent;
the C++ call discards the `(iterator, bool)` result, so a duplicate key
is silently a no-op. -/
def Config.insert (c : Config) (k : String) (e : ConfigEntry) : Config :=
  if (c.find k).isSome then c else ⟨c.entries ++ [(k, e)]⟩

/-- `pmemkv_config_put` (the static helper, lines 113-125): copies
`value_size` bytes into a fresh entry with a null deleter and the given
tag, `umap.insert`s it, and returns `PMEMKV_STATUS_OK` — the insert's
boolean result is never examined. -/
def pmemkv_config_put (c : Config) (k : String) (value : List Nat)
    (type : ConfigValType) : Config × Status :=
  (c.insert k ⟨value, none, type⟩, .OK)

/-- `pmemkv_config_put_data`. -/
def pmemkv_config_put_data (c : Config) (k : String) (value : List Nat) :
    Config × Status :=
  pmemkv_config_put c k value .DATA

/-- `pmemkv_config_put_object` (lines 256-269): stores the 8 pointer
bytes of `value` together with the caller's deleter, again via the
result-discarding `umap.insert`. -/
def pmemkv_config_put_object (c : Config) (k : String) (ptr : Nat)
    (deleter : Option Nat) : Config × Status :=
  (c.insert k ⟨u64ToBytes ptr, deleter, .OBJECT⟩, .OK)

/-- `pmemkv_config_put_int64`. -/
def pmemkv_config_put_int64 (c : Config) (k : String) (v : Int) :
    Config × Status :=
  pmemkv_config_put c k (u64ToBytes (i64ToU64 v)) .INT64

/-- `pmemkv_config_put_uint64`. -/
def pmemkv_config_put_uint64 (c : Config) (k : String) (v : Nat) :
    Config × Status :=
  pmemkv_config_put c k (u64ToBytes v) .UINT64

/-- `pmemkv_config_put_double`: the 8 bytes of the IEEE double are
stored verbatim; we carry the bit pattern (`bits`) without interpreting
it, which none of the container code does either. -/
def pmemkv_config_put_double (c : Config) (k : String) (bits : Nat) :
    Config × Status :=
  pmemkv_config_put c k (u64ToBytes bits) .DOUBLE

/-- `pmemkv_config_put_string`: stores `strlen(value) + 1` bytes, i.e.
the characters plus the trailing NUL. -/
def pmemkv_config_put_string (c : Config) (k : String) (s : List Nat) :
    Config × Status :=
  pmemkv_config_put c k (s ++ [0]) .STRING

/-- `pmemkv_config_get` (lines 127-151): returns `NOT_FOUND` on an
absent key, otherwise `OK` with the entry's data, size and type. -/
def pmemkv_config_get (c : Config) (k : String) :
    Status × Option (List Nat × Nat × ConfigValType) :=
  match c.find k with
  | none => (.NOT_FOUND, none)
  | some e => (.OK, some (e.value, e.value.length, e.type))

/-- `pmemkv_config_get_data` (lines 298-302): calls `pmemkv_config_get`
with a null `type` out-parameter — no type check of any kind. -/
def pmemkv_config_get_data (c : Config) (k : String) :
    Status × Option (List Nat × Nat) :=
  match c.find k with
  | none => (.NOT_FOUND, none)
  | some e => (.OK, some (e.value, e.value.length))

/-- `pmemkv_config_get_object` (lines 304-317): fetches data and size
with a null `type` out-parameter; the only check is
`size != sizeof(void*)` → `CONFIG_TYPE_ERROR`.  The third component is
the list of destructor invocations the call performs — the source body
contains no call to any deleter, hence `[]` on every path. -/
def pmemkv_config_get_object (c : Config) (k : String) :
    Status × Option Nat × List (Nat × Nat) :=
  match c.find k with
  | none => (.NOT_FOUND, none, [])
  | some e =>
    if e.value.length ≠ 8 then (.CONFIG_TYPE_ERROR, none, [])
    else (.OK, some (bytesToNat e.value), [])

/-- `pmemkv_config_get_int64` (lines 319-342): an `INT64` entry is read
back directly; a `UINT64` entry is accepted iff its value is strictly
below `INT64_MAX = 2^63 - 1`; every other tag is `CONFIG_TYPE_ERROR`. -/
def pmemkv_config_get_int64 (c : Config) (k : String) :
    Status × Option Int :=
  match c.find k with
  | none => (.NOT_FOUND, none)
  | some e =>
    if e.type = .INT64 then (.OK, some (u64ToI64 (bytesToNat e.value)))
    else if e.type = .UINT64 then
      if bytesToNat e.value < 2 ^ 63 - 1 then
        (.OK, some (u64ToI64 (bytesToNat e.value)))
      else (.CONFIG_TYPE_ERROR, none)
    else (.CONFIG_TYPE_ERROR, none)

/-- `pmemkv_config_get_uint64` (lines 344-367): a `UINT64` entry is read
back directly; an `INT64` entry is accepted iff its signed value is
non-negative; every other tag is `CONFIG_TYPE_ERROR`. -/
def pmemkv_config_get_uint64 (c : Config) (k : String) :
    Status × Option Nat :=
  match c.find k with
  | none => (.NOT_FOUND, none)
  | some e =>
    if e.type = .UINT64 then (.OK, some (bytesToNat e.value))
    else if e.type = .INT64 then
      if 0 ≤ u64ToI64 (bytesToNat e.value) then (.OK, some (bytesToNat e.value))
      else (.CONFIG_TYPE_ERROR, none)
    else (.CONFIG_TYPE_ERROR, none)

/-- `pmemkv_config_get_double` (lines 369-385): only a `DOUBLE` tag is
accepted; the 8 stored bytes are returned as the double's bit
pattern. -/
def pmemkv_config_get_double (c : Config) (k : String) :
    Status × Option Nat :=
  match c.find k with
  | none => (.NOT_FOUND, none)
  | some e =>
    if e.type ≠ .DOUBLE then (.CONFIG_TYPE_ERROR, none)
    else (.OK, some (bytesToNat e.value))

/-- `pmemkv_config_get_string` (lines 387-403): only a `STRING` tag is
accepted; the data pointer (here: the stored bytes, NUL included) is
returned. -/
def pmemkv_config_get_string (c : Config) (k : String) :
    Status × Option (List Nat) :=
  match c.find k with
  | none => (.NOT_FOUND, none)
  | some e =>
    if e.type ≠ .STRING then (.CONFIG_TYPE_ERROR, none)
    else (.OK, some e.value)

/-- `pmemkv_config_delete` (lines 97-111): walks all entries and, for
each `OBJECT` entry whose deleter is non-null, memcpy-reconstructs the
stored pointer and invokes the deleter on it.  The model returns the
list of `(deleter, pointer)` invocations performed. -/
def pmemkv_config_delete (c : Config) : List (Nat × Nat) :=
  c.entries.filterMap (fun kv =>
    if kv.2.type = .OBJECT then
      kv.2.deleter.map (fun d => (d, bytesToNat kv.2.value))
    else none)

/-! ### The engine and the bounded-copy wrapper (`pmemkv_get_copy`) -/

/-- Modelled from the spec: the Engine Capability is an external
collaborator whose implementations are not under `src/`.  §4.3 of the
spec fixes the single-key `get` contract the facade relies on: the
value is "delivered to the caller via a streaming callback invoked at
most once with the value's address and length if found; not invoked if
absent" (returning `NotFound`).  We model an engine as a finite map from
key byte strings to value byte strings. -/
abbrev Engine := List (List Nat × List Nat)

/-- Modelled from the spec: engine single-key lookup — `some value` when
the key is present (the callback is invoked once with it), `none` when
absent (the callback is not invoked). -/
def engineGet (eng : Engine) (k : List Nat) : Option (List Nat) :=
  (eng.find? (fun kv => kv.1 = k)).map (·.2)

/-- `memset(buffer, 0, n)`: zero the first `n` bytes of the buffer. -/
def memsetZero (b : List Nat) (n : Nat) : List Nat :=
  List.replicate (min n b.length) 0 ++ b.drop n

/-- `memcpy(dst, src, n)` at offset 0: the first `n` bytes of `src`
over the head of `dst`. -/
def memcpyList (dst src : List Nat) (n : Nat) : List Nat :=
  src.take n ++ dst.drop n

/-- `struct GetCopyCallbackContext` (lines 664-671): the running status,
the caller's buffer size, the buffer contents (`none` models a null
buffer pointer), and the value-size out-cell (`none` models a null
pointer). -/
structure GetCopyCallbackContext where
  result : Status
  buffer_size : Nat
  buffer : Option (List Nat)
  value_size : Option Nat
  deriving DecidableEq, Repr

/-- `get_copy_callback` (lines 673-687): always writes the value length
to a non-null value-size cell; copies and reports `OK` when
`vb < buffer_size`, else reports `FAILED` without copying. -/
def get_copy_callback (v : List Nat) (c : GetCopyCallbackContext) :
    GetCopyCallbackContext :=
  let c := { c with value_size := c.value_size.map (fun _ => v.length) }
  if v.length < c.buffer_size then
    { c with result := .OK,
             buffer := c.buffer.map (fun b => memcpyList b v v.length) }
  else
    { c with result := .FAILED }

/-- `pmemkv_get_copy` (lines 689-710): initializes the context with
`NOT_FOUND`, zero-fills a non-null buffer with `memset` *before* the
engine lookup, runs the engine's `get` with `get_copy_callback`, and
returns the context's status together with the final buffer and
value-size cells. -/
def pmemkv_get_copy (eng : Engine) (k : List Nat) (buffer : Option (List Nat))
    (buffer_size : Nat) (value_size : Option Nat) :
    Status × Option (List Nat) × Option Nat :=
  let ctx : GetCopyCallbackContext :=
    ⟨.NOT_FOUND, buffer_size, buffer.map (fun b => memsetZero b buffer_size),
     value_size⟩
  let ctx :=
    match engineGet eng k with
    | some v => get_copy_callback v ctx
    | none => ctx
  (ctx.result, ctx.buffer, ctx.value_size)

/-! ### The exception-to-status boundary of the query facade

Each public operation forwards to the engine inside a `try` block.  We
model the engine call's outcome abstractly and embed each operation's
handler chain exactly as written. -/

/-- Outcome of the underlying engine call: a normal status return, an
exception derived from `std::exception` carrying a message, or a
foreign exception of any other type. -/
inductive EngineOutcome where
  | ret (s : Status)
  | stdExc (msg : String)
  | otherExc
  deriving DecidableEq, Repr

/-- What the C caller observes: a returned status, or an exception
propagating out of the facade. -/
inductive CallResult where
  | ret (s : Status)
  | uncaught
  deriving DecidableEq, Repr

/-- `pmemkv_count_all` (lines 520-532): `catch (std::exception)` and
`catch (...)` both return `FAILED`. -/
def pmemkv_count_all (o : EngineOutcome) : CallResult :=
  match o with
  | .ret s => .ret s
  | .stdExc _ => .ret .FAILED
  | .otherExc => .ret .FAILED

/-- `pmemkv_count_above` (lines 534-546): both handlers present. -/
def pmemkv_count_above (o : EngineOutcome) : CallResult :=
  match o with
  | .ret s => .ret s
  | .stdExc _ => .ret .FAILED
  | .otherExc => .ret .FAILED

/-- `pmemkv_count_below` (lines 548-560): both handlers present. -/
def pmemkv_count_below (o : EngineOutcome) : CallResult :=
  match o with
  | .ret s => .ret s
  | .stdExc _ => .ret .FAILED
  | .otherExc => .ret .FAILED

/-- `pmemkv_count_between` (lines 562-576): both handlers present. -/
def pmemkv_count_between (o : EngineOutcome) : CallResult :=
  match o with
  | .ret s => .ret s
  | .stdExc _ => .ret .FAILED
  | .otherExc => .ret .FAILED

/-- `pmemkv_get_all` (lines 578-590): both handlers present. -/
def pmemkv_get_all (o : EngineOutcome) : CallResult :=
  match o with
  | .ret s => .ret s
  | .stdExc _ => .ret .FAILED
  | .otherExc => .ret .FAILED

/-- `pmemkv_get_above` (lines 592-602): only
`catch (const std::exception &)` is present — unlike every sibling
there is **no** `catch (...)`, so a foreign exception propagates out. -/
def pmemkv_get_above (o : EngineOutcome) : CallResult :=
  match o with
  | .ret s => .ret s
  | .stdExc _ => .ret .FAILED
  | .otherExc => .uncaught

/-- `pmemkv_get_below` (lines 604-617): both handlers present. -/
def pmemkv_get_below (o : EngineOutcome) : CallResult :=
  match o with
  | .ret s => .ret s
  | .stdExc _ => .ret .FAILED
  | .otherExc => .ret .FAILED

/-- `pmemkv_get_between` (lines 619-633): both handlers present. -/
def pmemkv_get_between (o : EngineOutcome) : CallResult :=
  match o with
  | .ret s => .ret s
  | .stdExc _ => .ret .FAILED
  | .otherExc => .ret .FAILED

/-- `pmemkv_exists` (lines 635-647): both handlers present. -/
def pmemkv_exists (o : EngineOutcome) : CallResult :=
  match o with
  | .ret s => .ret s
  | .stdExc _ => .ret .FAILED
  | .otherExc => .ret .FAILED

/-- `pmemkv_get` (lines 649-662): both handlers present. -/
def pmemkv_get (o : EngineOutcome) : CallResult :=
  match o with
  | .ret s => .ret s
  | .stdExc _ => .ret .FAILED
  | .otherExc => .ret .FAILED

/-- The `try`/`catch` skeleton of `pmemkv_get_copy` (lines 698-707):
both handlers present, each returning `FAILED`. -/
def pmemkv_get_copy_boundary (o : EngineOutcome) : CallResult :=
  match o with
  | .ret s => .ret s
  | .stdExc _ => .ret .FAILED
  | .otherExc => .ret .FAILED

/-- `pmemkv_put` (lines 712-724): both handlers present. -/
def pmemkv_put (o : EngineOutcome) : CallResult :=
  match o with
  | .ret s => .ret s
  | .stdExc _ => .ret .FAILED
  | .otherExc => .ret .FAILED

/-- `pmemkv_remove` (lines 726-738): both handlers present. -/
def pmemkv_remove (o : EngineOutcome) : CallResult :=
  match o with
  | .ret s => .ret s
  | .stdExc _ => .ret .FAILED
  | .otherExc => .ret .FAILED

/-- The public Query Facade operations of claim C6, as exception
boundaries over an engine-call outcome. -/
def queryFacadeOps : List (EngineOutcome → CallResult) :=
  [pmemkv_put, pmemkv_get, pmemkv_get_copy_boundary, pmemkv_remove,
   pmemkv_exists, pmemkv_count_all, pmemkv_count_above, pmemkv_count_below,
   pmemkv_count_between, pmemkv_get_all, pmemkv_get_above, pmemkv_get_below,
   pmemkv_get_between]

/-! ### Engine dispatch (`pmemkv_open`) -/

/-- The compile-time `ENGINE_*` switches guarding the optional engine
branches of `pmemkv_open`; `blackhole` is always compiled in. -/
structure BuildFlags where
  caching : Bool
  tree3 : Bool
  stree : Bool
  cmap : Bool
  vsmap : Bool
  vcmap : Bool
  deriving DecidableEq, Repr

/-- The final contents of the caller's `pmemkv_db *` out-cell:
never written, written with `nullptr`, or written with a constructed
engine of the given name. -/
inductive DbCell where
  | unchanged
  | null
  | engine (name : String)
  deriving DecidableEq, Repr

/-- `pmemkv_open` (lines 405-507).  `pathIsDir` models the
`stat`/`S_ISDIR` probe of the filesystem; engine constructors are
modelled as succeeding (their failure modes live outside `src/`).
Returns the status, the message `ERR()` leaves in the last-error slot
(`none` when the call writes none), and the final `*db` cell. -/
def pmemkv_open (flags : BuildFlags) (pathIsDir : List Nat → Bool)
    (engine : String) (config : Option Config) (dbNull : Bool) :
    Status × Option String × DbCell :=
  if dbNull then (.INVALID_ARGUMENT, none, .unchanged)
  else if engine = "blackhole" then (.OK, none, .engine "blackhole")
  else if flags.caching ∧ engine = "caching" then (.OK, none, .engine "caching")
  else
    match config with
    | none => (.INVALID_ARGUMENT, some "Config pointer is null", .unchanged)
    | some cfg =>
      match pmemkv_config_get_string cfg "path" with
      | (.OK, some path) =>
        match pmemkv_config_get_uint64 cfg "size" with
        | (.OK, some _size) =>
          if flags.tree3 ∧ engine = "tree3" then (.OK, none, .engine "tree3")
          else if flags.stree ∧ engine = "stree" then (.OK, none, .engine "stree")
          else if flags.cmap ∧ engine = "cmap" then (.OK, none, .engine "cmap")
          else if (flags.vsmap ∨ flags.vcmap) ∧ ¬ pathIsDir path then
            (.FAILED, some "Config path is not an existing directory", .null)
          else if flags.vsmap ∧ engine = "vsmap" then (.OK, none, .engine "vsmap")
          else if flags.vcmap ∧ engine = "vcmap" then (.OK, none, .engine "vcmap")
          else (.FAILED, some "Unknown engine name", .null)
        | _ => (.FAILED, some "Cannot get \x27size\x27 from the config", .null)
      | _ => (.FAILED, some "JSON does not contain a valid path string", .null)

/-! ### JSON ingestion (`pmemkv_config_from_json`)

The JSON tokenizer is an external capability; we embed its output: a
node tree.  rapidjson classifies each member value with the predicates
the source tests in order (`IsString`, `IsInt64`, `IsDouble`,
`IsTrue`/`IsFalse`, `IsObject`); numbers that satisfy neither `IsInt64`
nor `IsDouble` (e.g. unsigned values above `INT64_MAX`) are a distinct
constructor. -/

/-- A parsed JSON value node. -/
inductive JVal where
  | jnull
  | jbool (b : Bool)
  | jstring (s : List Nat)
  | jint64 (n : Int)
  | jdoubleNum (bits : Nat)
  | jobject (ms : List (String × JVal))
  | jarray
  | jbignum

/-- `IsString`. -/
def JVal.isString : JVal → Bool
  | .jstring _ => true
  | _ => false

/-- `IsNumber`: any numeric token. -/
def JVal.isNumber : JVal → Bool
  | .jint64 _ => true
  | .jdoubleNum _ => true
  | .jbignum => true
  | _ => false

/-- `kTypeNames[GetType()]` (lines 229-231). -/
def JVal.typeName : JVal → String
  | .jnull => "Null"
  | .jbool b => if b then "True" else "False"
  | .jobject _ => "Object"
  | .jarray => "Array"
  | .jstring _ => "String"
  | .jint64 _ => "Number"
  | .jdoubleNum _ => "Number"
  | .jbignum => "Number"

/-- The JSON kinds that reach the `else` branch of the member loop
(lines 228-236): not a string, not an `IsInt64`/`IsDouble` number, not a
boolean, not an object. -/
def JVal.unsupported : JVal → Bool
  | .jnull => true
  | .jarray => true
  | .jbignum => true
  | _ => false

/-- `doc["k"]` / `HasMember("k")`: the first member named `k`. -/
def jmemberVal (ms : List (String × JVal)) (k : String) : Option JVal :=
  (ms.find? (fun m => m.1 = k)).map (·.2)

/-- The two conventional-field checks at the top of
`pmemkv_config_from_json` (lines 164-167): a present non-string `path`,
then a present non-number `size`, each throwing its message. -/
def precheckErr (ms : List (String × JVal)) : Option String :=
  if (jmemberVal ms "path").elim false (fun v => ¬ v.isString) then
    some "\x27path\x27 in JSON is not a valid string"
  else if (jmemberVal ms "size").elim false (fun v => ¬ v.isNumber) then
    some "\x27size\x27 in JSON is not a valid number"
  else none

/-- The function pointer `&pmemkv_config_delete` that
`pmemkv_config_from_json` installs as the deleter of each nested
sub-configuration entry (line 224); an arbitrary non-null identifier. -/
def configDeleteFnPtr : Nat := 1

mutual

/-- The body of `pmemkv_config_from_json` (lines 160-237) applied to a
successfully parsed document `ms` starting from container `c`:
the `path`/`size` prechecks, then the member loop.  `Except.error msg`
models the `throw std::runtime_error(msg)` paths that the handler turns
into `CONFIG_PARSING_ERROR`. -/
def fromJsonDoc (c : Config) (ms : List (String × JVal)) : Except String Config :=
  match precheckErr ms with
  | some e => .error e
  | none => fromJsonMembers c ms

/-- The member loop (lines 169-237).  The typed puts always return `OK`
in the model (no allocation failure), so the
`Inserting ... to the config failed` throws are unreachable; a nested
object is re-parsed by a recursive `pmemkv_config_from_json` into a
fresh container and stored as an `OBJECT` entry whose deleter is
`&pmemkv_config_delete` (the sub-container's runtime address is not
modelled; the stored pointer value is irrelevant to every claim). -/
def fromJsonMembers (c : Config) : List (String × JVal) → Except String Config
  | [] => .ok c
  | (name, v) :: rest =>
    match v with
    | .jstring s => fromJsonMembers (pmemkv_config_put_string c name s).1 rest
    | .jint64 n => fromJsonMembers (pmemkv_config_put_int64 c name n).1 rest
    | .jdoubleNum bits =>
      fromJsonMembers (pmemkv_config_put_double c name bits).1 rest
    | .jbool b =>
      fromJsonMembers (pmemkv_config_put_int64 c name (if b then 1 else 0)).1 rest
    | .jobject subms =>
      match fromJsonDoc pmemkv_config_new subms with
      | .error _ => .error "Cannot parse subconfig"
      | .ok _sub =>
        fromJsonMembers
          (pmemkv_config_put_object c name 0 (some configDeleteFnPtr)).1 rest
    | bad => .error ("Unsupported data type in JSON string: " ++ bad.typeName)

end

/-- `pmemkv_config_from_json` observable outcome: the status and the
message `ERR()` leaves in the last-error slot (the partially populated
container on the error path is not consulted by any claim). -/
def pmemkv_config_from_json (c : Config) (ms : List (String × JVal)) :
    Status × Option String :=
  match fromJsonDoc c ms with
  | .ok _ => (.OK, none)
  | .error e => (.CONFIG_PARSING_ERROR, some e)

/-! ## Container lemmas -/

theorem find?_append_of_none {α : Type} (l₁ l₂ : List α) (p : α → Bool)
    (h : l₁.find? p = none) : (l₁ ++ l₂).find? p = l₂.find? p := by
  induction l₁ with
  | nil => simp
  | cons a l ih =>
    rw [List.cons_append]
    cases hpa : p a with
    | true => simp [List.find?_cons_of_pos, hpa] at h
    | false =>
      rw [List.find?_cons_of_neg _ (by simp [hpa])] at h
      rw [List.find?_cons_of_neg _ (by simp [hpa])]
      exact ih h

theorem Config.find_insert_self (c : Config) (k : String) (e : ConfigEntry)
    (h : c.find k = none) : (c.insert k e).find k = some e := by
  unfold Config.insert
  rw [h]
  simp only [Option.isSome_none, Bool.false_eq_true, if_false]
  have h' : c.entries.find? (fun kv => kv.1 = k) = none := by
    unfold Config.find at h
    exact Option.map_eq_none'.mp h
  unfold Config.find
  rw [find?_append_of_none _ _ _ h']
  simp [List.find?]

theorem Config.insert_of_present (c : Config) (k : String) (e : ConfigEntry)
    (h : (c.find k).isSome) : c.insert k e = c := by
  unfold Config.insert
  rw [if_pos h]

/-! ## C1: duplicate-key insertion -/

/-- C1 (counterexample): inserting key `"a"` twice via
`pmemkv_config_put_int64` returns `OK` on the second insert — not the
`FAILED` the claim demands — while the first value stays readable. -/
theorem C1_counterexample :
    (pmemkv_config_put_int64
      (pmemkv_config_put_int64 pmemkv_config_new "a" 1).1 "a" 2).2 = .OK ∧
    (Status.OK ≠ .FAILED) ∧
    pmemkv_config_get_int64
      (pmemkv_config_put_int64
        (pmemkv_config_put_int64 pmemkv_config_new "a" 1).1 "a" 2).1 "a" =
      (.OK, some 1) := by
  refine ⟨by decide, by decide, by decide⟩

/-- C1 (amended): a second insert of an existing key is a silent no-op —
`umap.insert`'s boolean result is discarded — so every typed put returns
`OK` (not `FAILED`) on a duplicate key, leaves the container unchanged,
and the first value remains readable by the matching typed get. -/
theorem C1_duplicate_key (c : Config) (k : String) (bytes : List Nat)
    (t : ConfigValType) (ptr : Nat) (d : Option Nat)
    (h : (c.find k).isSome) :
    pmemkv_config_put c k bytes t = (c, .OK) ∧
    pmemkv_config_put_object c k ptr d = (c, .OK) ∧
    pmemkv_config_get_int64 (pmemkv_config_put c k bytes t).1 k =
      pmemkv_config_get_int64 c k := by
  unfold pmemkv_config_put pmemkv_config_put_object
  rw [Config.insert_of_present c k _ h, Config.insert_of_present c k _ h]
  exact ⟨rfl, rfl, rfl⟩

/-- C1 (witness): the amended statement at a concrete duplicate key. -/
theorem C1_duplicate_key_witness :
    (((pmemkv_config_put_int64 pmemkv_config_new "a" 1).1.find "a").isSome) ∧
    pmemkv_config_put (pmemkv_config_put_int64 pmemkv_config_new "a" 1).1
      "a" [5] .DATA = ((pmemkv_config_put_int64 pmemkv_config_new "a" 1).1, .OK) :=
  ⟨by decide,
   (C1_duplicate_key (pmemkv_config_put_int64 pmemkv_config_new "a" 1).1
     "a" [5] .DATA 7 none (by decide)).1⟩

/-! ## C2: the type-error invariant of the typed getters -/

/-- C2 (counterexample): an `INT64` entry (8 stored bytes) is read back
by `pmemkv_config_get_object` with `OK` — its pointer-size check passes —
and by `pmemkv_config_get_data` with `OK` — it performs no type check at
all; the claim demands `CONFIG_TYPE_ERROR` from both. -/
theorem C2_counterexample :
    (pmemkv_config_get_object
      (pmemkv_config_put_int64 pmemkv_config_new "a" 5).1 "a").1 = .OK ∧
    (pmemkv_config_get_data
      (pmemkv_config_put_int64 pmemkv_config_new "a" 5).1 "a").1 = .OK ∧
    (Status.OK ≠ .CONFIG_TYPE_ERROR) := by
  refine ⟨by decide, by decide, by decide⟩

/-- C2 (amended): the type-error invariant holds for the four getters
that consult the type tag — `get_int64`, `get_uint64` (outside the two
numeric conversions), `get_double`, `get_string` — but not for the two
cited in the claim: `get_data` returns `OK` for every present entry
regardless of tag, and `get_object` checks only the stored byte length
against a pointer's size, so it returns `OK` on any 8-byte entry (an
`INT64` entry included) and `CONFIG_TYPE_ERROR` exactly on entries of
other lengths. -/
theorem C2_type_errors (c : Config) (k : String) (e : ConfigEntry)
    (h : c.find k = some e) :
    (e.type ≠ .DOUBLE → (pmemkv_config_get_double c k).1 = .CONFIG_TYPE_ERROR) ∧
    (e.type ≠ .STRING → (pmemkv_config_get_string c k).1 = .CONFIG_TYPE_ERROR) ∧
    (e.type ≠ .INT64 → e.type ≠ .UINT64 →
      (pmemkv_config_get_int64 c k).1 = .CONFIG_TYPE_ERROR) ∧
    (e.type ≠ .INT64 → e.type ≠ .UINT64 →
      (pmemkv_config_get_uint64 c k).1 = .CONFIG_TYPE_ERROR) ∧
    (pmemkv_config_get_data c k).1 = .OK ∧
    ((pmemkv_config_get_object c k).1 =
      if e.value.length = 8 then .OK else .CONFIG_TYPE_ERROR) := by
  unfold pmemkv_config_get_double pmemkv_config_get_string
    pmemkv_config_get_int64 pmemkv_config_get_uint64
    pmemkv_config_get_data pmemkv_config_get_object
  rw [h]
  refine ⟨fun h1 => by simp [h1], fun h1 => by simp [h1],
          fun h1 h2 => by simp [h1, h2], fun h1 h2 => by simp [h1, h2],
          rfl, ?_⟩
  by_cases hl : e.value.length = 8 <;> simp [hl]

/-- C2 (witness): the amended statement at an `INT64` entry. -/
theorem C2_type_errors_witness :
    ((pmemkv_config_put_int64 pmemkv_config_new "a" 5).1.find "a" =
      some ⟨u64ToBytes (i64ToU64 5), none, .INT64⟩) ∧
    (pmemkv_config_get_double
      (pmemkv_config_put_int64 pmemkv_config_new "a" 5).1 "a").1 =
        .CONFIG_TYPE_ERROR :=
  ⟨by decide,
   (C2_type_errors (pmemkv_config_put_int64 pmemkv_config_new "a" 5).1 "a"
     ⟨u64ToBytes (i64ToU64 5), none, .INT64⟩ (by decide)).1 (by decide)⟩

/-! ## C4: numeric conversion boundaries -/

theorem u64ToI64_small (n : Nat) (h : n < 2 ^ 63) : u64ToI64 n = n := by
  unfold u64ToI64
  rw [if_pos (by omega)]
  omega

theorem i64ToU64_lt (v : Int) : i64ToU64 v < 2 ^ 64 := by
  unfold i64ToU64
  omega

theorem i64ToU64_of_nonneg (v : Int) (h0 : 0 ≤ v) (h₂ : v < 2 ^ 63) :
    i64ToU64 v = v.toNat := by
  unfold i64ToU64
  omega

/-- C4 (confirmed): a stored `UInt64` value `v` is readable through
`pmemkv_config_get_int64` iff `v < INT64_MAX = 2^63 - 1` (the boundary
value `INT64_MAX` itself fails with `CONFIG_TYPE_ERROR`), a stored
`Int64` value `w` is readable through `pmemkv_config_get_uint64` iff
`w ≥ 0` (`w = -1` fails with `CONFIG_TYPE_ERROR`), and a successful
read returns the numeric value unchanged. -/
theorem C4_numeric_boundary (c : Config) (k : String) (v : Nat) (w : Int)
    (hk : c.find k = none) (hv : v < 2 ^ 64)
    (hw1 : -(2 ^ 63) ≤ w) (hw2 : w < 2 ^ 63) :
    ((pmemkv_config_get_int64 (pmemkv_config_put_uint64 c k v).1 k).1 = .OK ↔
        v < 2 ^ 63 - 1) ∧
    (v < 2 ^ 63 - 1 →
      pmemkv_config_get_int64 (pmemkv_config_put_uint64 c k v).1 k =
        (.OK, some (v : Int))) ∧
    (v = 2 ^ 63 - 1 →
      pmemkv_config_get_int64 (pmemkv_config_put_uint64 c k v).1 k =
        (.CONFIG_TYPE_ERROR, none)) ∧
    ((pmemkv_config_get_uint64 (pmemkv_config_put_int64 c k w).1 k).1 = .OK ↔
        0 ≤ w) ∧
    (0 ≤ w →
      pmemkv_config_get_uint64 (pmemkv_config_put_int64 c k w).1 k =
        (.OK, some w.toNat)) ∧
    (w = -1 →
      pmemkv_config_get_uint64 (pmemkv_config_put_int64 c k w).1 k =
        (.CONFIG_TYPE_ERROR, none)) := by
  have hfu : (pmemkv_config_put_uint64 c k v).1.find k =
      some ⟨u64ToBytes v, none, .UINT64⟩ :=
    Config.find_insert_self c k _ hk
  have hfi : (pmemkv_config_put_int64 c k w).1.find k =
      some ⟨u64ToBytes (i64ToU64 w), none, .INT64⟩ :=
    Config.find_insert_self c k _ hk
  have hb1 : bytesToNat (u64ToBytes v) = v := by
    rw [bytesToNat_u64ToBytes]; omega
  have hb2 : bytesToNat (u64ToBytes (i64ToU64 w)) = i64ToU64 w := by
    have := i64ToU64_lt w
    rw [bytesToNat_u64ToBytes]; omega
  have hrt := u64ToI64_i64ToU64 w hw1 hw2
  have hgi : pmemkv_config_get_int64 (pmemkv_config_put_uint64 c k v).1 k =
      if v < 2 ^ 63 - 1 then (Status.OK, some (v : Int))
      else (.CONFIG_TYPE_ERROR, none) := by
    simp [pmemkv_config_get_int64, hfu, hb1]
    split_ifs with hvm
    · simp [u64ToI64_small v (by omega)]
    · rfl
  have hgu : pmemkv_config_get_uint64 (pmemkv_config_put_int64 c k w).1 k =
      if 0 ≤ w then (Status.OK, some w.toNat)
      else (.CONFIG_TYPE_ERROR, none) := by
    simp [pmemkv_config_get_uint64, hfi, hb2, hrt]
    split_ifs with hw0
    · simp [i64ToU64_of_nonneg w hw0 hw2]
    · rfl
  refine ⟨?_, ?_, ?_, ?_, ?_, ?_⟩
  · rw [hgi]
    split_ifs with hvm <;> simp [hvm] <;> omega
  · intro hvm
    rw [hgi, if_pos hvm]
  · intro hvm
    rw [hgi, if_neg (by omega)]
  · rw [hgu]
    split_ifs with hw0 <;> simp [hw0]
  · intro hw0
    rw [hgu, if_pos hw0]
  · intro hw0
    rw [hgu, if_neg (by omega)]

/-- C4 (witness): `UInt64 3` reads back as `Int64 3`; `Int64 -1` is
rejected as `UInt64` with `CONFIG_TYPE_ERROR`. -/
theorem C4_numeric_boundary_witness :
    (pmemkv_config_new.find "a" = none) ∧
    pmemkv_config_get_int64
      (pmemkv_config_put_uint64 pmemkv_config_new "a" 3).1 "a" = (.OK, some 3) ∧
    pmemkv_config_get_uint64
      (pmemkv_config_put_int64 pmemkv_config_new "a" (-1)).1 "a" =
      (.CONFIG_TYPE_ERROR, none) :=
  ⟨by decide,
   (C4_numeric_boundary pmemkv_config_new "a" 3 (-1) (by decide) (by decide)
     (by decide) (by decide)).2.1 (by decide),
   (C4_numeric_boundary pmemkv_config_new "a" 3 (-1) (by decide) (by decide)
     (by decide) (by decide)).2.2.2.2.2 rfl⟩

/-! ## The bounded-copy wrapper: shared lemmas -/

theorem memsetZero_of_length (b : List Nat) (n : Nat) (h : b.length = n) :
    memsetZero b n = List.replicate n 0 := by
  subst h
  simp [memsetZero]

theorem drop_replicate_zero (m n : Nat) :
    (List.replicate n (0 : Nat)).drop m = List.replicate (n - m) 0 := by
  induction m generalizing n with
  | zero => simp
  | succ m ih =>
    cases n with
    | zero => simp
    | succ n =>
      rw [List.replicate_succ, List.drop_succ_cons, ih, Nat.succ_sub_succ]

theorem memcpy_into_zeroed (v : List Nat) (n : Nat) :
    memcpyList (List.replicate n 0) v v.length =
      v ++ List.replicate (n - v.length) 0 := by
  unfold memcpyList
  rw [List.take_length, drop_replicate_zero]

theorem get_copy_eq_absent (eng : Engine) (k : List Nat)
    (buf : Option (List Nat)) (n : Nat) (vs : Option Nat)
    (h : engineGet eng k = none) :
    pmemkv_get_copy eng k buf n vs =
      (.NOT_FOUND, buf.map (fun b => memsetZero b n), vs) := by
  unfold pmemkv_get_copy
  rw [h]

theorem get_copy_eq_found_small (eng : Engine) (k v : List Nat)
    (buf : Option (List Nat)) (n : Nat) (vs : Option Nat)
    (h : engineGet eng k = some v) (hlen : v.length < n) :
    pmemkv_get_copy eng k buf n vs =
      (.OK,
       (buf.map (fun b => memsetZero b n)).map (fun b => memcpyList b v v.length),
       vs.map (fun _ => v.length)) := by
  unfold pmemkv_get_copy get_copy_callback
  rw [h]
  simp [hlen]

theorem get_copy_eq_found_big (eng : Engine) (k v : List Nat)
    (buf : Option (List Nat)) (n : Nat) (vs : Option Nat)
    (h : engineGet eng k = some v) (hlen : n ≤ v.length) :
    pmemkv_get_copy eng k buf n vs =
      (.FAILED, buf.map (fun b => memsetZero b n), vs.map (fun _ => v.length)) := by
  unfold pmemkv_get_copy get_copy_callback
  rw [h]
  simp [Nat.not_lt.mpr hlen]

/-! ## C3: `get_copy` on an absent key -/

/-- C3 (counterexample): with the key absent, `pmemkv_get_copy` returns
`NOT_FOUND` but does **not** leave the destination buffer unchanged: a
buffer holding `[7]` comes back zero-filled to `[0]`. -/
theorem C3_counterexample :
    pmemkv_get_copy [] [1] (some [7]) 1 none = (.NOT_FOUND, some [0], none) ∧
    (some [7] : Option (List Nat)) ≠ some [0] := by
  refine ⟨by decide, by decide⟩

/-- C3 (amended): with the key absent, `pmemkv_get_copy` returns
`NOT_FOUND` and leaves the value-size out-parameter untouched, but the
destination buffer is not left unchanged — it has already been
zero-filled by the unconditional `memset` performed before the
lookup. -/
theorem C3_absent_key (eng : Engine) (k : List Nat) (buf : Option (List Nat))
    (n : Nat) (vs : Option Nat) (h : engineGet eng k = none) :
    pmemkv_get_copy eng k buf n vs =
      (.NOT_FOUND, buf.map (fun b => memsetZero b n), vs) :=
  get_copy_eq_absent eng k buf n vs h

/-- C3 (witness): the amended statement at the counterexample's input. -/
theorem C3_absent_key_witness :
    engineGet [] [1] = none ∧
    pmemkv_get_copy [] [1] (some [7]) 1 none = (.NOT_FOUND, some [0], none) :=
  ⟨rfl, C3_absent_key [] [1] (some [7]) 1 none rfl⟩

/-! ## C5: `get_copy` bounded-copy semantics -/

/-- C5 (confirmed): if the key is found with a value of length `L`
and the buffer (of matching declared size `n`) is non-null: `L < n`
yields `OK`, the `L` value bytes copied to the front of the buffer, and
`L` written to a non-null value-size cell; `L ≥ n` yields `FAILED`
and still writes the true length `L` to the value-size cell. -/
theorem C5_bounded_copy (eng : Engine) (k v b : List Nat) (n : Nat)
    (vs : Option Nat) (h : engineGet eng k = some v) (hb : b.length = n) :
    (v.length < n →
      pmemkv_get_copy eng k (some b) n vs =
        (.OK, some (v ++ List.replicate (n - v.length) 0),
         vs.map (fun _ => v.length))) ∧
    (n ≤ v.length →
      pmemkv_get_copy eng k (some b) n vs =
        (.FAILED, some (List.replicate n 0), vs.map (fun _ => v.length))) := by
  constructor
  · intro hlen
    rw [get_copy_eq_found_small eng k v (some b) n vs h hlen]
    simp [memsetZero_of_length b n hb, memcpy_into_zeroed]
  · intro hlen
    rw [get_copy_eq_found_big eng k v (some b) n vs h hlen]
    simp [memsetZero_of_length b n hb]

/-- C5 (witness): the spec's own example — a stored value of length 5
with a buffer of size 6 gives `OK`, 5 bytes copied, `value_size = 5`;
with a buffer of size 5 it gives `FAILED` and `value_size = 5`. -/
theorem C5_bounded_copy_witness :
    engineGet [([1], [10, 11, 12, 13, 14])] [1] = some [10, 11, 12, 13, 14] ∧
    pmemkv_get_copy [([1], [10, 11, 12, 13, 14])] [1]
      (some [9, 9, 9, 9, 9, 9]) 6 (some 0) =
      (.OK, some [10, 11, 12, 13, 14, 0], some 5) ∧
    pmemkv_get_copy [([1], [10, 11, 12, 13, 14])] [1]
      (some [9, 9, 9, 9, 9]) 5 (some 0) =
      (.FAILED, some [0, 0, 0, 0, 0], some 5) :=
  ⟨rfl,
   (C5_bounded_copy [([1], [10, 11, 12, 13, 14])] [1] [10, 11, 12, 13, 14]
     [9, 9, 9, 9, 9, 9] 6 (some 0) rfl rfl).1 (by decide),
   (C5_bounded_copy [([1], [10, 11, 12, 13, 14])] [1] [10, 11, 12, 13, 14]
     [9, 9, 9, 9, 9] 5 (some 0) rfl rfl).2 (by decide)⟩

/-! ## C10: the unconditional zero-fill of the destination buffer -/

/-- C10 (confirmed): a non-null destination buffer is `memset` to zero
before the lookup, so on every outcome the buffer has been written: on
`NOT_FOUND` and on the buffer-too-small `FAILED` it is all zeros, and on
`OK` it holds the value followed by zeros — every byte beyond the copied
length is zero. -/
theorem C10_buffer_prefill (eng : Engine) (k b : List Nat) (n : Nat)
    (vs : Option Nat) (hb : b.length = n) :
    (engineGet eng k = none →
      pmemkv_get_copy eng k (some b) n vs =
        (.NOT_FOUND, some (List.replicate n 0), vs)) ∧
    (∀ v, engineGet eng k = some v → v.length < n →
      pmemkv_get_copy eng k (some b) n vs =
        (.OK, some (v ++ List.replicate (n - v.length) 0),
         vs.map (fun _ => v.length))) ∧
    (∀ v, engineGet eng k = some v → n ≤ v.length →
      pmemkv_get_copy eng k (some b) n vs =
        (.FAILED, some (List.replicate n 0), vs.map (fun _ => v.length))) := by
  refine ⟨?_, ?_, ?_⟩
  · intro h
    rw [get_copy_eq_absent eng k (some b) n vs h]
    simp [memsetZero_of_length b n hb]
  · intro v h hlen
    rw [get_copy_eq_found_small eng k v (some b) n vs h hlen]
    simp [memsetZero_of_length b n hb, memcpy_into_zeroed]
  · intro v h hlen
    rw [get_copy_eq_found_big eng k v (some b) n vs h hlen]
    simp [memsetZero_of_length b n hb]

/-- C10 (witness): the prefill characterization at a concrete absent
key: the `[7]` buffer is written to `[0]` even on `NOT_FOUND`. -/
theorem C10_buffer_prefill_witness :
    ([7] : List Nat).length = 1 ∧
    pmemkv_get_copy [] [2] (some [7]) 1 none = (.NOT_FOUND, some [0], none) :=
  ⟨rfl, (C10_buffer_prefill [] [2] [7] 1 none rfl).1 rfl⟩

/-! ## C6: the exception boundary of the query facade -/

/-- C6 (code bug): `pmemkv_get_above` is the one public operation whose
handler chain lacks the `catch (...)` fallback every sibling has, so a
foreign exception (one not derived from `std::exception`) raised by the
engine propagates out of the facade instead of being mapped to `FAILED`;
its neighbour `pmemkv_get_below` maps the same outcome to `FAILED`. -/
theorem C6_get_above_uncaught :
    pmemkv_get_above .otherExc = .uncaught ∧
    pmemkv_get_below .otherExc = .ret .FAILED ∧
    pmemkv_get_above (.stdExc "boom") = .ret .FAILED := by
  refine ⟨rfl, rfl, rfl⟩

/-! ## C9: the destructor obligation of Object entries -/

theorem Config.insert_of_absent (c : Config) (k : String) (e : ConfigEntry)
    (h : c.find k = none) : c.insert k e = ⟨c.entries ++ [(k, e)]⟩ := by
  unfold Config.insert
  simp [h]

/-- C9 (confirmed): `pmemkv_config_delete` invokes the destructor of a
stored `Object` entry with a non-null deleter exactly once, with the
stored pointer value; an `Object` entry with a null deleter and entries
of every other type contribute no destructor call; and
`pmemkv_config_get_object` reads the pointer back while performing no
destructor invocation at all. -/
theorem C9_destructor_obligation (c : Config) (k : String) (ptr d : Nat)
    (bytes : List Nat) (t : ConfigValType)
    (hk : c.find k = none) (hptr : ptr < 2 ^ 64) :
    pmemkv_config_delete (pmemkv_config_put_object c k ptr (some d)).1 =
      pmemkv_config_delete c ++ [(d, ptr)] ∧
    pmemkv_config_delete (pmemkv_config_put_object c k ptr none).1 =
      pmemkv_config_delete c ∧
    pmemkv_config_delete (pmemkv_config_put c k bytes t).1 =
      pmemkv_config_delete c ∧
    pmemkv_config_get_object (pmemkv_config_put_object c k ptr (some d)).1 k =
      (.OK, some ptr, []) := by
  have hbn : bytesToNat (u64ToBytes ptr) = ptr := by
    rw [bytesToNat_u64ToBytes]; omega
  have hlen : (u64ToBytes ptr).length = 8 := by simp [u64ToBytes]
  have hfind : (pmemkv_config_put_object c k ptr (some d)).1.find k =
      some ⟨u64ToBytes ptr, some d, .OBJECT⟩ :=
    Config.find_insert_self c k _ hk
  refine ⟨?_, ?_, ?_, ?_⟩
  · rw [show (pmemkv_config_put_object c k ptr (some d)).1 =
        c.insert k ⟨u64ToBytes ptr, some d, .OBJECT⟩ from rfl,
      Config.insert_of_absent c k _ hk]
    unfold pmemkv_config_delete
    simp [hbn]
  · rw [show (pmemkv_config_put_object c k ptr none).1 =
        c.insert k ⟨u64ToBytes ptr, none, .OBJECT⟩ from rfl,
      Config.insert_of_absent c k _ hk]
    unfold pmemkv_config_delete
    simp
  · rw [show (pmemkv_config_put c k bytes t).1 =
        c.insert k ⟨bytes, none, t⟩ from rfl,
      Config.insert_of_absent c k _ hk]
    unfold pmemkv_config_delete
    simp
  · simp [pmemkv_config_get_object, hfind, hlen, hbn]

/-- C9 (witness): storing one `Object` with deleter `7` and pointer `42`
in an empty container produces exactly the invocation `(7, 42)` at
destruction. -/
theorem C9_destructor_obligation_witness :
    pmemkv_config_new.find "a" = none ∧
    pmemkv_config_delete
      (pmemkv_config_put_object pmemkv_config_new "a" 42 (some 7)).1 =
      pmemkv_config_delete pmemkv_config_new ++ [(7, 42)] :=
  ⟨by decide,
   (C9_destructor_obligation pmemkv_config_new "a" 42 7 [1] .DATA
     (by decide) (by decide)).1⟩

/-! ## C7: unknown engine names in `pmemkv_open` -/

/-- C7 (counterexample): with a perfectly valid (non-null, empty)
configuration that merely lacks a `path` entry, an unknown engine name
makes `pmemkv_open` return `FAILED` with the message about the missing
path — not a message identifying the unknown engine name, contradicting
the claim's universal quantification over configurations. -/
theorem C7_counterexample :
    pmemkv_open ⟨false, false, false, false, false, false⟩ (fun _ => false)
      "nonexistent-engine" (some pmemkv_config_new) false =
      (.FAILED, some "JSON does not contain a valid path string", .null) ∧
    ("JSON does not contain a valid path string" ≠ "Unknown engine name") := by
  refine ⟨by decide, by decide⟩

/-- C7 (amended): for every configuration that supplies a valid `path`
string and `size` (and whose path passes the directory probe when the
`vsmap`/`vcmap` engines are compiled in), an engine name matching none
of the known engines makes `pmemkv_open` return `FAILED` with the
message `Unknown engine name` and write null into the output handle (no
database handle is produced); for configurations missing `path` or
`size` the status is still `FAILED` but the diagnostic is the
config-specific one.  Independently, a null output-handle pointer makes
`pmemkv_open` return `INVALID_ARGUMENT` without touching the handle. -/
theorem C7_unknown_engine (flags : BuildFlags) (pathIsDir : List Nat → Bool)
    (engine : String) (cfg : Config) (path : List Nat) (sz : Nat)
    (hpath : pmemkv_config_get_string cfg "path" = (.OK, some path))
    (hsize : pmemkv_config_get_uint64 cfg "size" = (.OK, some sz))
    (hdir : flags.vsmap ∨ flags.vcmap → pathIsDir path = true)
    (h1 : engine ≠ "blackhole")
    (h2 : ¬(flags.caching ∧ engine = "caching"))
    (h3 : ¬(flags.tree3 ∧ engine = "tree3"))
    (h4 : ¬(flags.stree ∧ engine = "stree"))
    (h5 : ¬(flags.cmap ∧ engine = "cmap"))
    (h6 : ¬(flags.vsmap ∧ engine = "vsmap"))
    (h7 : ¬(flags.vcmap ∧ engine = "vcmap")) :
    pmemkv_open flags pathIsDir engine (some cfg) false =
      (.FAILED, some "Unknown engine name", .null) ∧
    pmemkv_open flags pathIsDir engine (some cfg) true =
      (.INVALID_ARGUMENT, none, .unchanged) := by
  have hdir' : ¬((flags.vsmap ∨ flags.vcmap) ∧ ¬ pathIsDir path) := by
    rintro ⟨hv, hnd⟩
    exact hnd (hdir hv)
  constructor
  · unfold pmemkv_open
    rw [if_neg (by simp), if_neg h1, if_neg h2]
    simp only [hpath, hsize]
    rw [if_neg h3, if_neg h4, if_neg h5, if_neg hdir', if_neg h6, if_neg h7]
  · rfl

/-- C7 (witness): the amended statement at a config holding
`path = "p"` and `size = 10`, with no optional engine compiled in. -/
theorem C7_unknown_engine_witness :
    pmemkv_config_get_string
      (pmemkv_config_put_uint64
        (pmemkv_config_put_string pmemkv_config_new "path" [112]).1
        "size" 10).1 "path" = (.OK, some [112, 0]) ∧
    pmemkv_open ⟨false, false, false, false, false, false⟩ (fun _ => true)
      "nonexistent-engine"
      (some (pmemkv_config_put_uint64
        (pmemkv_config_put_string pmemkv_config_new "path" [112]).1
        "size" 10).1) false =
      (.FAILED, some "Unknown engine name", .null) :=
  ⟨by decide,
   (C7_unknown_engine ⟨false, false, false, false, false, false⟩ (fun _ => true)
     "nonexistent-engine"
     (pmemkv_config_put_uint64
       (pmemkv_config_put_string pmemkv_config_new "path" [112]).1
       "size" 10).1 [112, 0] 10
     (by decide) (by decide) (by decide) (by decide) (by decide) (by decide)
     (by decide) (by decide) (by decide) (by decide)).1⟩

/-! ## C8: JSON ingestion of unsupported member kinds

Step lemmas for the well-founded `fromJsonDoc`/`fromJsonMembers` pair. -/

theorem fromJsonMembers_nil (c : Config) : fromJsonMembers c [] = .ok c := by
  rw [fromJsonMembers.eq_def]

theorem fromJsonMembers_cons_string (c : Config) (k : String) (s : List Nat)
    (tl : List (String × JVal)) :
    fromJsonMembers c ((k, .jstring s) :: tl) =
      fromJsonMembers (pmemkv_config_put_string c k s).1 tl := by
  rw [fromJsonMembers.eq_def]

theorem fromJsonMembers_cons_int64 (c : Config) (k : String) (n : Int)
    (tl : List (String × JVal)) :
    fromJsonMembers c ((k, .jint64 n) :: tl) =
      fromJsonMembers (pmemkv_config_put_int64 c k n).1 tl := by
  rw [fromJsonMembers.eq_def]

theorem fromJsonMembers_cons_double (c : Config) (k : String) (bits : Nat)
    (tl : List (String × JVal)) :
    fromJsonMembers c ((k, .jdoubleNum bits) :: tl) =
      fromJsonMembers (pmemkv_config_put_double c k bits).1 tl := by
  rw [fromJsonMembers.eq_def]

theorem fromJsonMembers_cons_bool (c : Config) (k : String) (b : Bool)
    (tl : List (String × JVal)) :
    fromJsonMembers c ((k, .jbool b) :: tl) =
      fromJsonMembers
        (pmemkv_config_put_int64 c k (if b then 1 else 0)).1 tl := by
  rw [fromJsonMembers.eq_def]

theorem fromJsonMembers_cons_object_ok (c : Config) (k : String)
    (subms tl : List (String × JVal)) (sub : Config)
    (h : fromJsonDoc pmemkv_config_new subms = .ok sub) :
    fromJsonMembers c ((k, .jobject subms) :: tl) =
      fromJsonMembers
        (pmemkv_config_put_object c k 0 (some configDeleteFnPtr)).1 tl := by
  rw [fromJsonMembers.eq_def]
  simp only [h]

theorem fromJsonMembers_cons_object_error (c : Config) (k : String)
    (subms tl : List (String × JVal)) (e : String)
    (h : fromJsonDoc pmemkv_config_new subms = .error e) :
    fromJsonMembers c ((k, .jobject subms) :: tl) =
      .error "Cannot parse subconfig" := by
  rw [fromJsonMembers.eq_def]
  simp only [h]

theorem fromJsonMembers_cons_unsupported (c : Config) (k : String) (v : JVal)
    (tl : List (String × JVal)) (hu : v.unsupported = true) :
    fromJsonMembers c ((k, v) :: tl) =
      .error ("Unsupported data type in JSON string: " ++ v.typeName) := by
  cases v with
  | jnull => rw [fromJsonMembers.eq_def]
  | jarray => rw [fromJsonMembers.eq_def]
  | jbignum => rw [fromJsonMembers.eq_def]
  | jstring s => simp [JVal.unsupported] at hu
  | jint64 n => simp [JVal.unsupported] at hu
  | jdoubleNum bits => simp [JVal.unsupported] at hu
  | jbool b => simp [JVal.unsupported] at hu
  | jobject ms => simp [JVal.unsupported] at hu

theorem fromJsonDoc_of_precheck_none (c : Config) (ms : List (String × JVal))
    (h : precheckErr ms = none) : fromJsonDoc c ms = fromJsonMembers c ms := by
  rw [fromJsonDoc.eq_def, h]

theorem fromJsonDoc_of_precheck_some (c : Config) (ms : List (String × JVal))
    (e : String) (h : precheckErr ms = some e) : fromJsonDoc c ms = .error e := by
  rw [fromJsonDoc.eq_def, h]

theorem fromJsonMembers_error_of_unsupported :
    ∀ (ms : List (String × JVal)) (c : Config) (k : String) (v : JVal),
      (k, v) ∈ ms → v.unsupported = true →
      ∃ e, fromJsonMembers c ms = .error e := by
  intro ms
  induction ms with
  | nil =>
    intro c k v hmem _
    simp at hmem
  | cons hd tl ih =>
    intro c k v hmem hu
    obtain ⟨k', v'⟩ := hd
    rcases List.mem_cons.mp hmem with heq | hmem'
    · injection heq with h1 h2
      subst h1
      subst h2
      exact ⟨_, fromJsonMembers_cons_unsupported c k v tl hu⟩
    · cases v' with
      | jstring s =>
        rw [fromJsonMembers_cons_string]
        exact ih _ k v hmem' hu
      | jint64 n =>
        rw [fromJsonMembers_cons_int64]
        exact ih _ k v hmem' hu
      | jdoubleNum bits =>
        rw [fromJsonMembers_cons_double]
        exact ih _ k v hmem' hu
      | jbool b =>
        rw [fromJsonMembers_cons_bool]
        exact ih _ k v hmem' hu
      | jobject subms =>
        cases hsub : fromJsonDoc pmemkv_config_new subms with
        | error e =>
          exact ⟨_, fromJsonMembers_cons_object_error c k' subms tl e hsub⟩
        | ok sub =>
          rw [fromJsonMembers_cons_object_ok c k' subms tl sub hsub]
          exact ih _ k v hmem' hu
      | jnull =>
        exact ⟨_, fromJsonMembers_cons_unsupported c k' .jnull tl rfl⟩
      | jarray =>
        exact ⟨_, fromJsonMembers_cons_unsupported c k' .jarray tl rfl⟩
      | jbignum =>
        exact ⟨_, fromJsonMembers_cons_unsupported c k' .jbignum tl rfl⟩

theorem fromJsonMembers_append :
    ∀ (pre xs : List (String × JVal)) (c c' : Config),
      fromJsonMembers c pre = .ok c' →
      fromJsonMembers c (pre ++ xs) = fromJsonMembers c' xs := by
  intro pre
  induction pre with
  | nil =>
    intro xs c c' h
    rw [fromJsonMembers_nil] at h
    injection h with h
    subst h
    rw [List.nil_append]
  | cons hd tl ih =>
    intro xs c c' h
    obtain ⟨k, v⟩ := hd
    cases v with
    | jstring s =>
      rw [fromJsonMembers_cons_string] at h
      rw [List.cons_append, fromJsonMembers_cons_string]
      exact ih xs _ c' h
    | jint64 n =>
      rw [fromJsonMembers_cons_int64] at h
      rw [List.cons_append, fromJsonMembers_cons_int64]
      exact ih xs _ c' h
    | jdoubleNum bits =>
      rw [fromJsonMembers_cons_double] at h
      rw [List.cons_append, fromJsonMembers_cons_double]
      exact ih xs _ c' h
    | jbool b =>
      rw [fromJsonMembers_cons_bool] at h
      rw [List.cons_append, fromJsonMembers_cons_bool]
      exact ih xs _ c' h
    | jobject subms =>
      cases hsub : fromJsonDoc pmemkv_config_new subms with
      | error e =>
        rw [fromJsonMembers_cons_object_error c k subms tl e hsub] at h
        exact absurd h (by simp)
      | ok sub =>
        rw [fromJsonMembers_cons_object_ok c k subms tl sub hsub] at h
        rw [List.cons_append, fromJsonMembers_cons_object_ok _ k subms _ sub hsub]
        exact ih xs _ c' h
    | jnull =>
      rw [fromJsonMembers_cons_unsupported c k .jnull tl rfl] at h
      exact absurd h (by simp)
    | jarray =>
      rw [fromJsonMembers_cons_unsupported c k .jarray tl rfl] at h
      exact absurd h (by simp)
    | jbignum =>
      rw [fromJsonMembers_cons_unsupported c k .jbignum tl rfl] at h
      exact absurd h (by simp)

/-- C8 (counterexample): the JSON text `{"path": [...]}` has a top-level
member whose value is an array, yet the diagnostic is the dedicated
`path`-validity message, which is not the unsupported-kind message
naming the member's type — the claim's message clause fails (its status
clause still holds). -/
theorem C8_counterexample :
    pmemkv_config_from_json pmemkv_config_new [("path", .jarray)] =
      (.CONFIG_PARSING_ERROR, some "\x27path\x27 in JSON is not a valid string") ∧
    ("\x27path\x27 in JSON is not a valid string" ≠
      "Unsupported data type in JSON string: Array") := by
  constructor
  · unfold pmemkv_config_from_json
    rw [fromJsonDoc_of_precheck_some _ _ _ (by rfl)]
  · decide

/-- C8 (amended): a JSON document whose top level contains a member of
an unsupported kind (array, null, or a number fitting neither `Int64`
nor `Double`) always fails with `CONFIG_PARSING_ERROR`; the diagnostic
names the offending member's JSON type when the failure is raised by
the unsupported-kind branch itself — i.e. when the `path`/`size`
prechecks pass and the members before the offending one ingest
successfully — while a failing precheck (e.g. a non-string `path`, even
one that is itself an array) yields its dedicated message instead. -/
theorem C8_unsupported_member (c : Config) (ms pre rest : List (String × JVal))
    (kb : String) (bad : JVal) :
    ((∃ k v, (k, v) ∈ ms ∧ v.unsupported = true) →
      (pmemkv_config_from_json c ms).1 = .CONFIG_PARSING_ERROR) ∧
    (bad.unsupported = true →
      precheckErr (pre ++ (kb, bad) :: rest) = none →
      (∃ c', fromJsonMembers c pre = .ok c') →
      pmemkv_config_from_json c (pre ++ (kb, bad) :: rest) =
        (.CONFIG_PARSING_ERROR,
         some ("Unsupported data type in JSON string: " ++ bad.typeName))) := by
  constructor
  · rintro ⟨k, v, hmem, hu⟩
    unfold pmemkv_config_from_json
    cases hpre : precheckErr ms with
    | some e => rw [fromJsonDoc_of_precheck_some _ _ _ hpre]
    | none =>
      rw [fromJsonDoc_of_precheck_none _ _ hpre]
      obtain ⟨e, he⟩ := fromJsonMembers_error_of_unsupported ms c k v hmem hu
      rw [he]
  · rintro hu hpre ⟨c', hc'⟩
    unfold pmemkv_config_from_json
    rw [fromJsonDoc_of_precheck_none _ _ hpre,
      fromJsonMembers_append pre ((kb, bad) :: rest) c c' hc',
      fromJsonMembers_cons_unsupported c' kb bad rest hu]

/-- C8 (witness): `{"a": [...]}` fails with `CONFIG_PARSING_ERROR`, and
`{"a": null}` fails with the message naming the `Null` type. -/
theorem C8_unsupported_member_witness :
    ("a", JVal.jarray) ∈ [("a", JVal.jarray)] ∧
    (pmemkv_config_from_json pmemkv_config_new [("a", JVal.jarray)]).1 =
      .CONFIG_PARSING_ERROR ∧
    pmemkv_config_from_json pmemkv_config_new [("a", JVal.jnull)] =
      (.CONFIG_PARSING_ERROR,
       some ("Unsupported data type in JSON string: " ++ JVal.typeName .jnull)) :=
  ⟨List.mem_cons_self _ _,
   (C8_unsupported_member pmemkv_config_new [("a", JVal.jarray)] [] [] "x"
     .jnull).1 ⟨"a", .jarray, List.mem_cons_self _ _, rfl⟩,
   (C8_unsupported_member pmemkv_config_new [] [] [] "a" .jnull).2 rfl rfl
     ⟨pmemkv_config_new, fromJsonMembers_nil pmemkv_config_new⟩⟩

end Pmemkv
